import Mathlib

/-!
Shallow embedding of the `beelzebub.base` module (`src/beelzebub/base/__init__.py`):
configuration resolution, the endpoint open/close lifecycle, the
reader/writer specialisations, the pass-through processor and the
workflow driver.  Mutable Python objects are modelled by explicit state
passing: every method that mutates `self` returns the updated state
together with an `Except` value mirroring a raised exception, so that
mutations performed before an exception are retained, as they are on the
Python object.
-/

/-- PyVal models the Python values that flow through the writer: strings,
mappings (such as template substitution data) and `None`.  It is used to
state that an untemplated render does not stringify its data. -/
inductive PyVal where
  | str (s : String)
  | dict (d : List (String × String))
  | noneVal
deriving DecidableEq

/-- Err models the Python exception classes this layer raises or passes
through: `TypeError`, `FileNotFoundError` and `AttributeError`. -/
inductive Err where
  | typeError (msg : String)
  | fileNotFound (path : String)
  | attributeError (msg : String)
deriving DecidableEq

/-- Conf models the per-endpoint configuration dict `self.conf`,
restricted to the keys the module ever reads or writes: `iotype`,
`mode`, `encoding` and the nested `fs_opts` mapping.  A `none` field
means the key is absent from the dict. -/
structure Conf where
  iotype : Option String
  mode : Option String
  encoding : Option String
  fs_opts : Option (List (String × String))
deriving DecidableEq

/-- OpenOpts models the `opts` dict built by `_construct_open_opts` and
passed to the backend open call; `none` means the key is absent. -/
structure OpenOpts where
  mode : Option String
  encoding : Option String
deriving DecidableEq

/-- HKind tags which backend produced an open handle.  A url handle
records the parsed transport scheme (`self.fp.protocol`, which also
marks the handle as remote) and the keyword options that were passed to
`fsspec.filesystem`. -/
inductive HKind where
  | file (path : String)
  | url (ident : String) (protocol : String) (filesystemOpts : List (String × String))
  | strbuf
deriving DecidableEq

/-- Handle models an open stream.  The stream position splits the buffer
into `pre` (before the position) and `rest` (after it): `read` returns
`rest` and moves the position to the end; `write` overwrites at the
position. -/
structure Handle where
  kind : HKind
  pre : String
  rest : String
  mode : Option String
  encoding : Option String
deriving DecidableEq

/-- Env bundles the external collaborators: the local filesystem (path
to contents), the remote filesystem reachable through `fsspec` (url to
body) and the `jinja2` template engine (template path and data to
rendered text). -/
structure Env where
  fs : String → Option String
  web : String → Option String
  render : String → PyVal → String

/-- BaseContextManager models the mutable state of a
`BaseContextManager` instance: `self.iostream`, `self.iotype`,
`self.conf` and `self.fp`. -/
structure BaseContextManager where
  iostream : Option String
  iotype : String
  conf : Conf
  fp : Option Handle
deriving DecidableEq

/-- BaseReader adds the `self.input` attribute to the base state. -/
structure BaseReader where
  ctx : BaseContextManager
  input : Option String
deriving DecidableEq

/-- BaseWriter adds the `self.output` attribute to the base state. -/
structure BaseWriter where
  ctx : BaseContextManager
  output : Option PyVal
deriving DecidableEq

/-- BaseProcessor models a `BaseProcessor` instance holding its reader,
writer, optional configuration and the `input`/`output` attributes. -/
structure BaseProcessor where
  reader : BaseReader
  writer : BaseWriter
  conf : Option Conf
  input : Option String
  output : Option PyVal
deriving DecidableEq

/-- BaseWorkflow models a `BaseWorkflow` instance with the default
reader/writer/processor classes: its configuration sections and the
stored source and sink identifiers. -/
structure BaseWorkflow where
  confReader : Option Conf
  confWriter : Option Conf
  confProcessor : Option Conf
  confLogger : Option Conf
  source : Option String
  sink : Option String
deriving DecidableEq

/-- pyLower models Python `str.lower()` (the module only lowercases
ASCII kind tokens), written over the character list so that it reduces
definitionally. -/
def pyLower (s : String) : String := String.mk (s.data.map Char.toLower)

/-- optTruthy models Python truthiness of an optional string argument:
`None` and the empty string are falsy, every other string is truthy. -/
def optTruthy : Option String → Bool
  | Option.none => false
  | Option.some s => !(s == "")

/-- strTruthy models Python truthiness of a plain string. -/
def strTruthy (s : String) : Bool := !(s == "")

/-- dictUpdate models Python `dict.update`: bindings of `new` overwrite
same-key bindings of `old`, all other bindings of `old` are kept, and
genuinely new keys are appended. -/
def dictUpdate (old new : List (String × String)) : List (String × String) :=
  old.map (fun p => match new.lookup p.1 with
    | Option.some v => (p.1, v)
    | Option.none => p)
  ++ new.filter (fun q => (old.lookup q.1).isNone)

/-- urlScheme models `urllib.parse.urlparse(iostream).scheme` for
identifiers that carry an explicit scheme, such as `https://host/x`: the
characters before the first colon, or empty when there is no colon. -/
def urlScheme (u : String) : String :=
  if u.data.contains ':' then String.mk (u.data.takeWhile (fun c => !(c == ':')))
  else ""

/-- modeIsWrite models the only mode distinction the open backends need
here: whether the effective mode string starts with `w` (truncate or
create) rather than `r` (the resource must exist). -/
def modeIsWrite (opts : OpenOpts) : Bool :=
  match (opts.mode.getD "r").data with
  | c :: _ => c == 'w'
  | [] => false

/-- ioOpen models `io.open` as used here: a `None` path raises
TypeError, opening a missing path for reading raises FileNotFoundError,
and a `w` mode starts from an empty file. -/
def ioOpen (fs : String → Option String) (path : Option String) (opts : OpenOpts) :
    Except Err Handle :=
  match path with
  | Option.none =>
    Except.error (Err.typeError "expected str, bytes or os.PathLike object, not NoneType")
  | Option.some p =>
    if modeIsWrite opts then
      Except.ok { kind := HKind.file p, pre := "", rest := "", mode := opts.mode,
                  encoding := opts.encoding }
    else
      match fs p with
      | Option.some c =>
        Except.ok { kind := HKind.file p, pre := "", rest := c, mode := opts.mode,
                    encoding := opts.encoding }
      | Option.none => Except.error (Err.fileNotFound p)

/-- fsspecOpen models `fsspec.filesystem(protocol, **fs_opts).open(...)`
followed by the `self.fp.remote`/`self.fp.protocol` annotations: the
handle records the protocol and the options the filesystem was built
with; a missing remote object raises the backend's not-found error. -/
def fsspecOpen (web : String → Option String) (protocol : String)
    (filesystemOpts : List (String × String)) (ident : String) (opts : OpenOpts) :
    Except Err Handle :=
  if modeIsWrite opts then
    Except.ok { kind := HKind.url ident protocol filesystemOpts, pre := "", rest := "",
                mode := opts.mode, encoding := opts.encoding }
  else
    match web ident with
    | Option.some body =>
      Except.ok { kind := HKind.url ident protocol filesystemOpts, pre := "", rest := body,
                  mode := opts.mode, encoding := opts.encoding }
    | Option.none => Except.error (Err.fileNotFound ident)

/-- stringIONew models CPython `io.StringIO(initial_value, **opts)`: a
`None` initial value yields an empty buffer, and any keyword argument
other than `initial_value`/`newline` — in particular `encoding` or
`mode` — raises TypeError, because `StringIO` accepts no such keyword. -/
def stringIONew (initial : Option String) (opts : OpenOpts) : Except Err Handle :=
  if opts.mode.isSome || opts.encoding.isSome then
    Except.error (Err.typeError "invalid keyword argument for StringIO()")
  else
    Except.ok { kind := HKind.strbuf, pre := "", rest := initial.getD "",
                mode := Option.none, encoding := Option.none }

/-- read models `fp.read()`: return everything after the stream position
and move the position to the end. -/
def Handle.read (h : Handle) : String × Handle :=
  (h.rest, { h with pre := h.pre ++ h.rest, rest := "" })

/-- write models `fp.write(s)`: overwrite `s` at the stream position. -/
def Handle.write (h : Handle) (s : String) : Handle :=
  { h with pre := h.pre ++ s, rest := h.rest.drop s.length }

/-- filesystemOptsOf extracts, for a url handle, the keyword options
that were passed to `fsspec.filesystem` when it was opened. -/
def Handle.filesystemOptsOf (h : Handle) : List (String × String) :=
  match h.kind with
  | HKind.url _ _ o => o
  | _ => []

/-- protocolOf extracts the recorded transport scheme of a url handle. -/
def Handle.protocolOf (h : Handle) : Option String :=
  match h.kind with
  | HKind.url _ p _ => Option.some p
  | _ => Option.none

/-- init models `BaseContextManager.__init__`: store the arguments and,
when `iotype` is falsy, fall back to `conf['iotype']` if that key exists
(the `KeyError` when it does not is swallowed).  Construction never
raises and performs no validation of the kind. -/
def BaseContextManager.init (iostream : Option String) (iotype : String) (conf : Conf) :
    BaseContextManager :=
  if strTruthy iotype then
    { iostream := iostream, iotype := iotype, conf := conf, fp := Option.none }
  else
    match conf.iotype with
    | Option.some t => { iostream := iostream, iotype := t, conf := conf, fp := Option.none }
    | Option.none => { iostream := iostream, iotype := iotype, conf := conf, fp := Option.none }

/-- Models `BaseContextManager._construct_open_opts`: for the file/url
kinds the conf `mode` and `encoding` entries (when present) are copied
into the open options; for the str kind only `encoding` is copied; for
any other kind the options are empty.  Kind comparison lowercases. -/
def BaseContextManager._construct_open_opts (iotype : String) (conf : Conf) : OpenOpts :=
  if pyLower iotype == "file" || pyLower iotype == "url" then
    { mode := conf.mode, encoding := conf.encoding }
  else if pyLower iotype == "str" then
    { mode := Option.none, encoding := conf.encoding }
  else
    { mode := Option.none, encoding := Option.none }

/-- Models the argument-merging phase of `BaseContextManager.open`
(source lines 134-148): each truthy argument overwrites the
corresponding attribute or conf entry, and a non-empty `fs_opts` kwarg
dict is merged additively into `conf['fs_opts']` (created first when
absent).  The sequential Python statements touch disjoint fields, so
they are rendered as one simultaneous record update. -/
def BaseContextManager.applyOpenArgs (self : BaseContextManager) (iostream : Option String)
    (iotype : String) (mode : Option String) (encoding : Option String)
    (fs_opts : List (String × String)) : BaseContextManager :=
  { iostream := if optTruthy iostream then iostream else self.iostream,
    iotype := if strTruthy iotype then iotype else self.iotype,
    conf := { iotype := self.conf.iotype,
              mode := if optTruthy mode then mode else self.conf.mode,
              encoding := if optTruthy encoding then encoding else self.conf.encoding,
              fs_opts := if fs_opts.isEmpty then self.conf.fs_opts
                         else Option.some (dictUpdate (self.conf.fs_opts.getD []) fs_opts) },
    fp := self.fp }

/-- Models the backend dispatch of `BaseContextManager.open` (source
lines 154-165).  Note that the url branch hands `fsspec.filesystem` the
current call's `fs_opts` kwargs, not the merged `conf['fs_opts']`. -/
def BaseContextManager.dispatchOpen (env : Env) (self : BaseContextManager) (opts : OpenOpts)
    (fs_opts : List (String × String)) : Except Err Handle :=
  if pyLower self.iotype == "file" then
    ioOpen env.fs self.iostream opts
  else if pyLower self.iotype == "url" then
    match self.iostream with
    | Option.none => Except.error (Err.typeError "urlparse argument is None")
    | Option.some u => fsspecOpen env.web (urlScheme u) fs_opts u opts
  else if pyLower self.iotype == "str" then
    stringIONew self.iostream opts
  else
    Except.error (Err.typeError ("unsupported iotype " ++ self.iotype))

/-- Models `BaseContextManager.open`: merge the arguments into the
state, build the effective open options, then dispatch on the
(lowercased) kind.  On a backend error the mutated state is kept and
`self.fp` is left unchanged, mirroring the Python object after the
exception propagates. -/
def BaseContextManager.«open» (env : Env) (self : BaseContextManager) (iostream : Option String)
    (iotype : String) (mode : Option String) (encoding : Option String)
    (fs_opts : List (String × String)) : BaseContextManager × Except Err Unit :=
  let s := BaseContextManager.applyOpenArgs self iostream iotype mode encoding fs_opts
  let opts := BaseContextManager._construct_open_opts s.iotype s.conf
  match BaseContextManager.dispatchOpen env s opts fs_opts with
  | Except.ok h => ({ s with fp := Option.some h }, Except.ok ())
  | Except.error e => (s, Except.error e)

/-- Models `BaseContextManager.close`: `self.fp.close(); self.fp = None`.
With no open handle, `None.close()` raises AttributeError. -/
def BaseContextManager.close (self : BaseContextManager) :
    BaseContextManager × Except Err Unit :=
  match self.fp with
  | Option.none => (self, Except.error (Err.attributeError "NoneType object has no attribute close"))
  | Option.some _ => ({ self with fp := Option.none }, Except.ok ())

/-- Models `BaseContextManager.__enter__`: `self.open(iostream=self.iostream)`. -/
def BaseContextManager.enter (env : Env) (self : BaseContextManager) :
    BaseContextManager × Except Err Unit :=
  BaseContextManager.«open» env self self.iostream "" Option.none Option.none []

/-- Models `BaseReader.__init__`: the base constructor plus `self.input = None`. -/
def BaseReader.init (iostream : Option String) (iotype : String) (conf : Conf) : BaseReader :=
  { ctx := BaseContextManager.init iostream iotype conf, input := Option.none }

/-- Models `BaseReader.open`: `mode = mode or self.conf.get('mode', 'r')`,
then the base open with that mode. -/
def BaseReader.«open» (env : Env) (self : BaseReader) (iostream : Option String)
    (iotype : String) (mode : Option String) (encoding : Option String)
    (fs_opts : List (String × String)) : BaseReader × Except Err Unit :=
  let m := if optTruthy mode then mode.getD "" else self.ctx.conf.mode.getD "r"
  let p := BaseContextManager.«open» env self.ctx iostream iotype (Option.some m) encoding fs_opts
  ({ self with ctx := p.1 }, p.2)

/-- Models `BaseReader.read`: `self.input = self.fp.read()`; a missing
handle raises AttributeError. -/
def BaseReader.read (self : BaseReader) : BaseReader × Except Err String :=
  match self.ctx.fp with
  | Option.none => (self, Except.error (Err.attributeError "NoneType object has no attribute read"))
  | Option.some h =>
    let r := Handle.read h
    ({ ctx := { self.ctx with fp := Option.some r.2 }, input := Option.some r.1 }, Except.ok r.1)

/-- Models `BaseReader.__enter__` (inherited, dispatching to `BaseReader.open`). -/
def BaseReader.enter (env : Env) (self : BaseReader) : BaseReader × Except Err Unit :=
  BaseReader.«open» env self self.ctx.iostream "" Option.none Option.none []

/-- Models `BaseReader.close` (inherited base close acting on the reader state). -/
def BaseReader.close (self : BaseReader) : BaseReader × Except Err Unit :=
  let p := BaseContextManager.close self.ctx
  ({ self with ctx := p.1 }, p.2)

/-- Models `BaseWriter.__init__`: the base constructor plus `self.output = None`. -/
def BaseWriter.init (iostream : Option String) (iotype : String) (conf : Conf) : BaseWriter :=
  { ctx := BaseContextManager.init iostream iotype conf, output := Option.none }

/-- Models `BaseWriter.DEFAULTS['template']`, which is `None`: there is
no built-in default template. -/
def BaseWriter.DEFAULTS_template : Option String := Option.none

/-- Models `BaseWriter.open`: `mode = mode or self.conf.get('mode', 'w')`,
then the base open with that mode. -/
def BaseWriter.«open» (env : Env) (self : BaseWriter) (iostream : Option String)
    (iotype : String) (mode : Option String) (encoding : Option String)
    (fs_opts : List (String × String)) : BaseWriter × Except Err Unit :=
  let m := if optTruthy mode then mode.getD "" else self.ctx.conf.mode.getD "w"
  let p := BaseContextManager.«open» env self.ctx iostream iotype (Option.some m) encoding fs_opts
  ({ self with ctx := p.1 }, p.2)

/-- Models `BaseWriter.infill_template`: a falsy template argument falls
back to the default template; with no template at all, `self.output` is
the data itself, verbatim; otherwise the external template engine
renders the template file against the data. -/
def BaseWriter.infill_template (env : Env) (self : BaseWriter) (data : PyVal)
    (template : Option String) : BaseWriter :=
  let t := if optTruthy template then template else BaseWriter.DEFAULTS_template
  if optTruthy t then
    { self with output := Option.some (PyVal.str (env.render (t.getD "") data)) }
  else
    { self with output := Option.some data }

/-- Models `BaseWriter.transform`: `self.infill_template(data)` with no
template argument. -/
def BaseWriter.transform (env : Env) (self : BaseWriter) (data : PyVal) : BaseWriter :=
  BaseWriter.infill_template env self data Option.none

/-- Models `BaseWriter.write`: transform, then `self.fp.write(self.output)`.
Writing through a missing handle raises AttributeError; writing a
non-str output raises the stream's TypeError. -/
def BaseWriter.write (env : Env) (self : BaseWriter) (data : PyVal) :
    BaseWriter × Except Err PyVal :=
  let w := BaseWriter.transform env self data
  match w.ctx.fp with
  | Option.none => (w, Except.error (Err.attributeError "NoneType object has no attribute write"))
  | Option.some h =>
    match w.output with
    | Option.some (PyVal.str s) =>
      ({ w with ctx := { w.ctx with fp := Option.some (Handle.write h s) } },
        Except.ok (PyVal.str s))
    | _ => (w, Except.error (Err.typeError "write argument must be str"))

/-- Models `BaseWriter.__enter__` (inherited, dispatching to `BaseWriter.open`). -/
def BaseWriter.enter (env : Env) (self : BaseWriter) : BaseWriter × Except Err Unit :=
  BaseWriter.«open» env self self.ctx.iostream "" Option.none Option.none []

/-- Models `BaseWriter.close` (inherited base close acting on the writer state). -/
def BaseWriter.close (self : BaseWriter) : BaseWriter × Except Err Unit :=
  let p := BaseContextManager.close self.ctx
  ({ self with ctx := p.1 }, p.2)

/-- pyWith models the Python `with` statement over this module's context
managers: run `__enter__`; on success run the body; then always run
`__exit__`, which closes.  `__exit__` returns False, so a body failure
is re-raised after a successful close, while a close failure propagates
instead (masking a body failure). -/
def pyWith {σ α : Type} (enterF exitF : σ → σ × Except Err Unit)
    (body : σ → σ × Except Err α) (s : σ) : σ × Except Err α :=
  match enterF s with
  | (s1, Except.error e) => (s1, Except.error e)
  | (s1, Except.ok _) =>
    let br := body s1
    match exitF br.1 with
    | (s3, Except.error ec) => (s3, Except.error ec)
    | (s3, Except.ok _) => (s3, br.2)

/-- Models `BaseProcessor.process`: read the whole input inside a reader
scope, store it in `self.input`, then write it inside a writer scope (no
template is applied by this step). -/
def BaseProcessor.process (env : Env) (p : BaseProcessor) :
    BaseProcessor × Except Err Unit :=
  let rr := pyWith (BaseReader.enter env) BaseReader.close BaseReader.read p.reader
  match rr.2 with
  | Except.error e => ({ p with reader := rr.1 }, Except.error e)
  | Except.ok v =>
    let p2 := { p with reader := rr.1, input := Option.some v }
    let wr := pyWith (BaseWriter.enter env) BaseWriter.close
      (fun w => BaseWriter.write env w (PyVal.str v)) p2.writer
    match wr.2 with
    | Except.error e => ({ p2 with writer := wr.1 }, Except.error e)
    | Except.ok _ => ({ p2 with writer := wr.1 }, Except.ok ())

/-- Models `BaseWorkflow.get_conf_section`: the named section, or `None`
when absent (the `KeyError` is swallowed). -/
def BaseWorkflow.get_conf_section (wf : BaseWorkflow) (name : String) : Option Conf :=
  if name == "reader" then wf.confReader
  else if name == "writer" then wf.confWriter
  else if name == "processor" then wf.confProcessor
  else if name == "logger" then wf.confLogger
  else Option.none

/-- Models `BaseWorkflow.process` with the default classes: build fresh
reader/writer/processor instances from the conf sections and the stored
source/sink, then run the processor.  `setup_logging` only applies the
optional `logger` section to the process-wide logging configuration, an
external side effect with no bearing on the data path, so it is not
modelled.  When a reader/writer section is absent the constructor
subscripts `None` for `iotype`, which raises TypeError. -/
def BaseWorkflow.process (env : Env) (wf : BaseWorkflow) : Except Err BaseProcessor :=
  match BaseWorkflow.get_conf_section wf "reader", BaseWorkflow.get_conf_section wf "writer" with
  | Option.some rc, Option.some wc =>
    let p : BaseProcessor :=
      { reader := BaseReader.init wf.source "" rc,
        writer := BaseWriter.init wf.sink "" wc,
        conf := BaseWorkflow.get_conf_section wf "processor",
        input := Option.none, output := Option.none }
    let pr := BaseProcessor.process env p
    match pr.2 with
    | Except.ok _ => Except.ok pr.1
    | Except.error e => Except.error e
  | _, _ => Except.error (Err.typeError "NoneType object is not subscriptable")

/-- Models `BaseWorkflow.run`: store the source and sink identifiers,
apply the logging setup (external, see `BaseWorkflow.process`), then
process. -/
def BaseWorkflow.run (env : Env) (wf : BaseWorkflow) (source sink : Option String) :
    Except Err BaseProcessor :=
  BaseWorkflow.process env { wf with source := source, sink := sink }

/-- envEmpty is a collaborator environment with no local files, no
remote objects and a trivial template engine. -/
def envEmpty : Env :=
  { fs := fun _ => Option.none, web := fun _ => Option.none, render := fun _ _ => "" }

/-- envUrl serves exactly one remote object, at
`https://host/path/data.txt`, with body `test`. -/
def envUrl : Env :=
  { fs := fun _ => Option.none,
    web := fun u => if u == "https://host/path/data.txt" then Option.some "test" else Option.none,
    render := fun _ _ => "" }

/-- confEmpty is an empty configuration dict. -/
def confEmpty : Conf :=
  { iotype := Option.none, mode := Option.none, encoding := Option.none, fs_opts := Option.none }

/-- confStr is the configuration dict of a str-kind endpoint section. -/
def confStr : Conf :=
  { iotype := Option.some "str", mode := Option.none, encoding := Option.none,
    fs_opts := Option.none }

/-- wfStrToStr is a workflow configured with a str-kind reader section
and a str-kind writer section. -/
def wfStrToStr : BaseWorkflow :=
  { confReader := Option.some confStr, confWriter := Option.some confStr,
    confProcessor := Option.none, confLogger := Option.none,
    source := Option.none, sink := Option.none }

/-- Helper: passing `self.iostream` back to open (as `__enter__` does) is
the same as passing no iostream argument. -/
lemma applyOpenArgs_self_iostream (s : BaseContextManager) (io : String) (m e : Option String)
    (f : List (String × String)) :
    BaseContextManager.applyOpenArgs s s.iostream io m e f
      = BaseContextManager.applyOpenArgs s Option.none io m e f := by
  unfold BaseContextManager.applyOpenArgs
  cases h : optTruthy s.iostream <;> simp [h, optTruthy]

/-- Helper: `BaseReader.__enter__` is `BaseReader.open` with all-default
arguments. -/
lemma reader_enter_eq (env : Env) (r : BaseReader) :
    BaseReader.enter env r
      = BaseReader.«open» env r Option.none "" Option.none Option.none [] := by
  simp only [BaseReader.enter, BaseReader.«open», BaseContextManager.«open»,
    applyOpenArgs_self_iostream]

/-- Helper: `BaseWriter.__enter__` is `BaseWriter.open` with all-default
arguments. -/
lemma writer_enter_eq (env : Env) (w : BaseWriter) :
    BaseWriter.enter env w
      = BaseWriter.«open» env w Option.none "" Option.none Option.none [] := by
  simp only [BaseWriter.enter, BaseWriter.«open», BaseContextManager.«open»,
    applyOpenArgs_self_iostream]

/-- Helper: whatever the backend dispatch returns, the configuration of
the state returned by open is the one produced by the argument-merging
phase. -/
lemma open_fst_conf (env : Env) (s : BaseContextManager) (ios : Option String) (io : String)
    (m e : Option String) (f : List (String × String)) :
    ((BaseContextManager.«open» env s ios io m e f).1).conf
      = (BaseContextManager.applyOpenArgs s ios io m e f).conf := by
  cases h : BaseContextManager.dispatchOpen env (BaseContextManager.applyOpenArgs s ios io m e f)
      (BaseContextManager._construct_open_opts (BaseContextManager.applyOpenArgs s ios io m e f).iotype
        (BaseContextManager.applyOpenArgs s ios io m e f).conf) f <;>
    simp [BaseContextManager.«open», h]

/-- Helper: the `mode` entry of the configuration after `BaseReader.open`
is the truthy mode argument when one is given, else the pre-existing
entry, else the built-in default `r`. -/
lemma reader_open_mode (env : Env) (r : BaseReader) (ios : Option String) (io : String)
    (marg e : Option String) (f : List (String × String)) :
    ((BaseReader.«open» env r ios io marg e f).1).ctx.conf.mode
      = Option.some (if optTruthy marg then marg.getD "" else r.ctx.conf.mode.getD "r") := by
  simp only [BaseReader.«open», open_fst_conf, BaseContextManager.applyOpenArgs]
  rcases marg with _ | s
  · rcases h : r.ctx.conf.mode with _ | t
    · simp [optTruthy]
    · by_cases ht : t = "" <;> simp [optTruthy, ht]
  · by_cases hs : s = ""
    · subst hs
      rcases h : r.ctx.conf.mode with _ | t
      · simp [optTruthy]
      · by_cases ht : t = "" <;> simp [optTruthy, ht]
    · simp [optTruthy, hs]

/-- Helper: the `mode` entry of the configuration after `BaseWriter.open`
is the truthy mode argument when one is given, else the pre-existing
entry, else the built-in default `w`. -/
lemma writer_open_mode (env : Env) (w : BaseWriter) (ios : Option String) (io : String)
    (marg e : Option String) (f : List (String × String)) :
    ((BaseWriter.«open» env w ios io marg e f).1).ctx.conf.mode
      = Option.some (if optTruthy marg then marg.getD "" else w.ctx.conf.mode.getD "w") := by
  simp only [BaseWriter.«open», open_fst_conf, BaseContextManager.applyOpenArgs]
  rcases marg with _ | s
  · rcases h : w.ctx.conf.mode with _ | t
    · simp [optTruthy]
    · by_cases ht : t = "" <;> simp [optTruthy, ht]
  · by_cases hs : s = ""
    · subst hs
      rcases h : w.ctx.conf.mode with _ | t
      · simp [optTruthy]
      · by_cases ht : t = "" <;> simp [optTruthy, ht]
    · simp [optTruthy, hs]

/-- rdrConfModeR is a reader whose configuration already contains mode
`r`, the concrete input of the C1 counterexample. -/
def rdrConfModeR : BaseReader :=
  { ctx := { iostream := Option.some "x", iotype := "str",
             conf := { iotype := Option.none, mode := Option.some "r",
                       encoding := Option.none, fs_opts := Option.none },
             fp := Option.none }, input := Option.none }

/-- C1 counterexample: the claim says every non-null mode argument
overrides a configured mode, but the non-null empty-string argument
`mode=''` is falsy in Python, so with configuration mode `r` the open
resolves to `r`, not to the argument `''`. -/
theorem c1_counterexample :
    ((BaseReader.«open» envEmpty rdrConfModeR Option.none "" (Option.some "") Option.none []).1).ctx.conf.mode
        = Option.some "r"
    ∧ Option.some "r" ≠ (Option.some "" : Option String) :=
  ⟨rfl, by decide⟩

/-- C1 (amended): the effective open configuration is resolved with
precedence (highest wins): a truthy — non-null and non-empty — mode
argument overwrites the configuration entry, otherwise a pre-existing
configuration mode entry applies, otherwise the built-in default (`r`
for read endpoints, `w` for write endpoints); in particular, for every
configuration containing a mode entry and every non-null, non-empty mode
argument, open resolves to the argument's mode. -/
theorem c1_amended_precedence (env : Env) (r : BaseReader) (w : BaseWriter)
    (marg : Option String) :
    ((BaseReader.«open» env r Option.none "" marg Option.none []).1).ctx.conf.mode
        = Option.some (if optTruthy marg then marg.getD "" else r.ctx.conf.mode.getD "r")
    ∧ ((BaseWriter.«open» env w Option.none "" marg Option.none []).1).ctx.conf.mode
        = Option.some (if optTruthy marg then marg.getD "" else w.ctx.conf.mode.getD "w") :=
  ⟨reader_open_mode env r Option.none "" marg Option.none [],
   writer_open_mode env w Option.none "" marg Option.none []⟩

/-- C2: for every supported kind (file, url, str — the spec's `string`
is the code's `str` token), opening a read endpoint with no mode
argument and no mode configuration entry resolves mode `r`, and opening
a write endpoint under the same conditions resolves mode `w`. -/
theorem c2_default_modes (env : Env) (ios : Option String) (k : String) (rc wc : Conf)
    (hk : k = "file" ∨ k = "url" ∨ k = "str")
    (hr : rc.mode = Option.none) (hw : wc.mode = Option.none) :
    ((BaseReader.«open» env
        { ctx := { iostream := ios, iotype := k, conf := rc, fp := Option.none },
          input := Option.none }
        Option.none "" Option.none Option.none []).1).ctx.conf.mode = Option.some "r"
    ∧ ((BaseWriter.«open» env
        { ctx := { iostream := ios, iotype := k, conf := wc, fp := Option.none },
          output := Option.none }
        Option.none "" Option.none Option.none []).1).ctx.conf.mode = Option.some "w" := by
  constructor
  · rw [reader_open_mode]
    simp [optTruthy, hr]
  · rw [writer_open_mode]
    simp [optTruthy, hw]

/-- C2 witness at kind `str` with empty configurations. -/
theorem c2_default_modes_witness :
    ((BaseReader.«open» envEmpty
        { ctx := { iostream := Option.some "x", iotype := "str", conf := confEmpty, fp := Option.none },
          input := Option.none }
        Option.none "" Option.none Option.none []).1).ctx.conf.mode = Option.some "r"
    ∧ ((BaseWriter.«open» envEmpty
        { ctx := { iostream := Option.some "x", iotype := "str", conf := confEmpty, fp := Option.none },
          output := Option.none }
        Option.none "" Option.none Option.none []).1).ctx.conf.mode = Option.some "w" :=
  c2_default_modes envEmpty (Option.some "x") "str" confEmpty confEmpty
    (Or.inr (Or.inr rfl)) rfl rfl

/-- C3: rendering with no template argument (and no built-in default
template, the default being none) yields output equal to the data
verbatim, without stringification — for every PyVal, mappings included;
consequently, running a workflow with a str-kind reader and a str-kind
writer on any source string X yields writer output exactly X. -/
theorem c3_passthrough (env : Env) (w : BaseWriter) (data : PyVal) (X : String)
    (sink : Option String) :
    (BaseWriter.infill_template env w data Option.none).output = Option.some data
    ∧ ∃ p : BaseProcessor,
        BaseWorkflow.run env wfStrToStr (Option.some X) sink = Except.ok p
        ∧ p.writer.output = Option.some (PyVal.str X) := by
  constructor
  · rfl
  · unfold BaseWorkflow.run BaseWorkflow.process BaseProcessor.process pyWith
    simp only [reader_enter_eq, writer_enter_eq]
    exact ⟨_, rfl, rfl⟩

/-- C4: when a scope's enter succeeds and the body leaves the resource
handle open, exiting the scope closes the handle (the final state has no
open handle) whether or not the body raised, and the body's outcome —
including a raised error — propagates unchanged once the close
completes; the exit never suppresses the body's error. -/
theorem c4_scoped_close {α : Type} (env : Env) (s s1 s2 : BaseContextManager) (hdl : Handle)
    (body : BaseContextManager → BaseContextManager × Except Err α) (r : Except Err α)
    (h1 : BaseContextManager.enter env s = (s1, Except.ok ()))
    (h2 : body s1 = (s2, r)) (h3 : s2.fp = Option.some hdl) :
    pyWith (BaseContextManager.enter env) BaseContextManager.close body s
      = ({ s2 with fp := Option.none }, r) := by
  simp [pyWith, h1, h2, BaseContextManager.close, h3]

/-- bodyRaise is a scope body that raises a TypeError without touching
the state, the concrete input of the C4 witness. -/
def bodyRaise : BaseContextManager → BaseContextManager × Except Err String :=
  fun s => (s, Except.error (Err.typeError "boom"))

/-- ctxStrX is a closed str endpoint over the payload `x`. -/
def ctxStrX : BaseContextManager :=
  { iostream := Option.some "x", iotype := "str", conf := confEmpty, fp := Option.none }

/-- ctxStrXOpened is `ctxStrX` after a successful enter. -/
def ctxStrXOpened : BaseContextManager :=
  { iostream := Option.some "x", iotype := "str", conf := confEmpty,
    fp := Option.some { kind := HKind.strbuf, pre := "", rest := "x", mode := Option.none,
                        encoding := Option.none } }

/-- C4 witness: a str endpoint scope whose body raises; the error
propagates and the handle is closed. -/
theorem c4_scoped_close_witness :
    pyWith (BaseContextManager.enter envEmpty) BaseContextManager.close bodyRaise ctxStrX
      = (ctxStrX, Except.error (Err.typeError "boom")) :=
  c4_scoped_close envEmpty ctxStrX ctxStrXOpened ctxStrXOpened
    { kind := HKind.strbuf, pre := "", rest := "x", mode := Option.none, encoding := Option.none }
    bodyRaise (Except.error (Err.typeError "boom")) rfl rfl rfl

/-- ctxUrlTimeout is a url endpoint whose configuration already holds
the backend option `timeout=10`, the concrete input of the C5
evaluation. -/
def ctxUrlTimeout : BaseContextManager :=
  { iostream := Option.some "https://host/path/data.txt", iotype := "url",
    conf := { iotype := Option.none, mode := Option.none, encoding := Option.none,
              fs_opts := Option.some [("timeout", "10")] },
    fp := Option.none }

/-- C5 evaluated at the failing input: opening the url endpoint with the
keyword option `anon=true` merges additively into `conf['fs_opts']` (the
pre-existing `timeout` entry is kept) and records the parsed scheme
`https` on the handle, yet the filesystem backend is built from only the
current call's keyword options, which differ from the merged options —
so accumulated options are not in effect, contradicting the claim. -/
theorem c5_backend_opts_eval :
    (let pr := BaseContextManager.«open» envUrl ctxUrlTimeout Option.none ""
        Option.none Option.none [("anon", "true")]
     pr.1.conf.fs_opts = Option.some [("timeout", "10"), ("anon", "true")]
     ∧ pr.2 = Except.ok ()
     ∧ (pr.1.fp.map Handle.filesystemOptsOf) = Option.some [("anon", "true")]
     ∧ (pr.1.fp.map Handle.protocolOf) = Option.some (Option.some "https")
     ∧ [("anon", "true")] ≠ [("timeout", "10"), ("anon", "true")]) :=
  ⟨rfl, rfl, rfl, rfl, by decide⟩

/-- confStrEncoding is a str-kind configuration with an encoding entry,
the concrete input of the C6 evaluation. -/
def confStrEncoding : Conf :=
  { iotype := Option.some "str", mode := Option.none, encoding := Option.some "utf-8",
    fs_opts := Option.none }

/-- C6 evaluated: a configured mode is indeed never forwarded to the
in-memory buffer — the open options built for kind `str` never contain a
mode, for every configuration — but with a configured encoding the open
does not succeed: the encoding keyword is forwarded to `io.StringIO`,
which rejects it with TypeError, contradicting the claim. -/
theorem c6_str_encoding_eval :
    (∀ c : Conf, (BaseContextManager._construct_open_opts "str" c).mode = Option.none)
    ∧ (BaseContextManager.«open» envEmpty
         { iostream := Option.some "x", iotype := "str", conf := confStrEncoding,
           fp := Option.none }
         Option.none "" Option.none Option.none []).2
       = Except.error (Err.typeError "invalid keyword argument for StringIO()") :=
  ⟨fun _ => rfl, rfl⟩

/-- C7: for every kind value that is not, case-insensitively, one of
file/url/str (the spec's `string` is the code's `str` token),
construction succeeds without error — the constructor is total and
stores the kind unvalidated — and open() fails with the TypeError only
at the backend dispatch on that kind. -/
theorem c7_invalid_kind (env : Env) (ios ios2 : Option String) (conf : Conf) (s : String)
    (c : BaseContextManager)
    (hs : ¬ (pyLower s = "file" ∨ pyLower s = "url" ∨ pyLower s = "str"))
    (hco : conf.iotype = Option.none ∨ s ≠ "")
    (hcs : c.iotype = s) :
    (BaseContextManager.init ios s conf).iotype = s
    ∧ (BaseContextManager.«open» env c ios2 "" Option.none Option.none []).2
        = Except.error (Err.typeError ("unsupported iotype " ++ s)) := by
  push_neg at hs
  obtain ⟨hs1, hs2, hs3⟩ := hs
  constructor
  · by_cases he : s = ""
    · subst he
      rcases hco with hco | hco
      · simp [BaseContextManager.init, strTruthy, hco]
      · simp at hco
    · simp [BaseContextManager.init, strTruthy, he]
  · simp [BaseContextManager.«open», BaseContextManager.applyOpenArgs,
      BaseContextManager.dispatchOpen, strTruthy, hcs, hs1, hs2, hs3]

/-- C7 witness at the unrecognized kind `xml`. -/
theorem c7_invalid_kind_witness :
    (BaseContextManager.init (Option.some "x") "xml" confEmpty).iotype = "xml"
    ∧ (BaseContextManager.«open» envEmpty
        { iostream := Option.some "x", iotype := "xml", conf := confEmpty, fp := Option.none }
        Option.none "" Option.none Option.none []).2
        = Except.error (Err.typeError ("unsupported iotype " ++ "xml")) :=
  c7_invalid_kind envEmpty (Option.some "x") Option.none confEmpty "xml"
    { iostream := Option.some "x", iotype := "xml", conf := confEmpty, fp := Option.none }
    (by decide) (Or.inr (by decide)) rfl

/-- C8: opening a file-kind endpoint with an absent identifier fails
with the backend's TypeError, while opening a str-kind endpoint with an
absent identifier (and no configured encoding) succeeds with an empty
in-memory buffer, and a subsequent read() returns the empty string. -/
theorem c8_missing_identifier (env : Env) (cf cs : Conf) (hcs : cs.encoding = Option.none) :
    ((BaseReader.«open» env
        { ctx := { iostream := Option.none, iotype := "file", conf := cf, fp := Option.none },
          input := Option.none }
        Option.none "" Option.none Option.none []).2
      = Except.error (Err.typeError "expected str, bytes or os.PathLike object, not NoneType"))
    ∧ (let pr := BaseReader.«open» env
          { ctx := { iostream := Option.none, iotype := "str", conf := cs, fp := Option.none },
            input := Option.none }
          Option.none "" Option.none Option.none []
       pr.2 = Except.ok ()
       ∧ pr.1.ctx.fp = Option.some
           { kind := HKind.strbuf, pre := "", rest := "", mode := Option.none,
             encoding := Option.none }
       ∧ (BaseReader.read pr.1).2 = Except.ok "") := by
  refine ⟨rfl, ?_, ?_, ?_⟩ <;>
    simp [BaseReader.«open», BaseContextManager.«open», BaseContextManager.applyOpenArgs,
      BaseContextManager.dispatchOpen, BaseContextManager._construct_open_opts,
      stringIONew, pyLower, optTruthy, strTruthy, hcs, BaseReader.read, Handle.read]

/-- C8 witness with empty configurations. -/
theorem c8_missing_identifier_witness :
    ((BaseReader.«open» envEmpty
        { ctx := { iostream := Option.none, iotype := "file", conf := confEmpty, fp := Option.none },
          input := Option.none }
        Option.none "" Option.none Option.none []).2
      = Except.error (Err.typeError "expected str, bytes or os.PathLike object, not NoneType"))
    ∧ (let pr := BaseReader.«open» envEmpty
          { ctx := { iostream := Option.none, iotype := "str", conf := confEmpty, fp := Option.none },
            input := Option.none }
          Option.none "" Option.none Option.none []
       pr.2 = Except.ok ()
       ∧ pr.1.ctx.fp = Option.some
           { kind := HKind.strbuf, pre := "", rest := "", mode := Option.none,
             encoding := Option.none }
       ∧ (BaseReader.read pr.1).2 = Except.ok "") :=
  c8_missing_identifier envEmpty confEmpty confEmpty rfl

/-- C9: configuration entries written by open() persist across calls:
after opening once with mode `r`, the stored mode entry is `r`, and a
second open() with no arguments resolves mode `r` again and leaves the
stored entry unchanged. -/
theorem c9_conf_persistence (env : Env) (r : BaseReader) :
    (((BaseReader.«open» env r Option.none "" (Option.some "r") Option.none []).1).ctx.conf.mode
        = Option.some "r")
    ∧ (((BaseReader.«open» env
          ((BaseReader.«open» env r Option.none "" (Option.some "r") Option.none []).1)
          Option.none "" Option.none Option.none []).1).ctx.conf.mode = Option.some "r") := by
  have h1 := reader_open_mode env r Option.none "" (Option.some "r") Option.none []
  simp only [optTruthy] at h1
  norm_num at h1
  refine ⟨h1, ?_⟩
  have h2 := reader_open_mode env
    ((BaseReader.«open» env r Option.none "" (Option.some "r") Option.none []).1)
    Option.none "" Option.none Option.none []
  simp only [optTruthy, h1] at h2
  simpa using h2

/-- C10: an endpoint constructed with an empty kind argument and a
configuration containing an iotype entry takes its kind from that entry
at construction time; a non-empty kind argument takes precedence and the
configuration entry is ignored. -/
theorem c10_kind_from_conf (ios : Option String) (conf : Conf) (t k : String)
    (ht : conf.iotype = Option.some t) (hk : k ≠ "") :
    (BaseContextManager.init ios "" conf).iotype = t
    ∧ (BaseContextManager.init ios k conf).iotype = k := by
  constructor
  · simp [BaseContextManager.init, strTruthy, ht]
  · simp [BaseContextManager.init, strTruthy, hk]

/-- C10 witness: conf iotype `file` with empty and with `url` kind
arguments. -/
theorem c10_kind_from_conf_witness :
    (BaseContextManager.init (Option.some "x") ""
        { iotype := Option.some "file", mode := Option.none, encoding := Option.none,
          fs_opts := Option.none }).iotype = "file"
    ∧ (BaseContextManager.init (Option.some "x") "url"
        { iotype := Option.some "file", mode := Option.none, encoding := Option.none,
          fs_opts := Option.none }).iotype = "url" :=
  c10_kind_from_conf (Option.some "x")
    { iotype := Option.some "file", mode := Option.none, encoding := Option.none,
      fs_opts := Option.none } "file" "url" rfl (by decide)
